import Mathlib

/-!
Verification of the operations-dashboard repository's specified behavior.

The natural-language-query subsystem (conversation store, prompt builder,
SQL extractor, query validator, query executor, response composer) is
documented in the repository (class diagrams, API documentation, security
notes) but its implementation is not among the provided source files, so it
is modelled here from the specification; frontend components
(`status/page.tsx`, the project intake form) are embedded directly from
their TypeScript source.
-/

/-! ## Character-level string helpers (kernel-reducible) -/

def upChar (c : Char) : Char :=
  if 97 ≤ c.toNat ∧ c.toNat ≤ 122 then Char.ofNat (c.toNat - 32) else c

def lowChar (c : Char) : Char :=
  if 65 ≤ c.toNat ∧ c.toNat ≤ 90 then Char.ofNat (c.toNat + 32) else c

def upStr (s : String) : String := String.mk (s.toList.map upChar)

def lowStr (s : String) : String := String.mk (s.toList.map lowChar)

def strStarts (s p : String) : Bool := p.toList.isPrefixOf s.toList

/-- Suffix of `cs` after the first occurrence of `pat`, if any. -/
def afterPat (pat : List Char) : List Char → Option (List Char)
  | [] => if pat.isEmpty then some [] else none
  | c :: rest =>
    if pat.isPrefixOf (c :: rest) then some ((c :: rest).drop pat.length)
    else afterPat pat rest

/-- Prefix of `cs` before the first occurrence of `pat` (all of it if absent). -/
def beforePat (pat : List Char) : List Char → List Char
  | [] => []
  | c :: rest => if pat.isPrefixOf (c :: rest) then [] else c :: beforePat pat rest

def trimChars (cs : List Char) : List Char :=
  ((cs.dropWhile Char.isWhitespace).reverse.dropWhile Char.isWhitespace).reverse

def trimStr (s : String) : String := String.mk (trimChars s.toList)

/-! ## Query Validator (spec §4.4) -/

/-- Comment-stripping state: ordinary code, inside a `--` line comment,
or inside a block comment. -/
inductive StripMode where
  | code
  | line
  | block
deriving DecidableEq, Repr

/-- Modelled from the spec: one pass over the characters removing SQL
comments, `--...` to end of line and block comments, the validator's
pre-processing step (validator implementation absent from the sources). -/
def stripGo : StripMode → List Char → List Char
  | _, [] => []
  | .code, '-' :: '-' :: rest => stripGo .line rest
  | .code, '/' :: '*' :: rest => stripGo .block rest
  | .code, c :: rest => c :: stripGo .code rest
  | .line, '\n' :: rest => '\n' :: stripGo .code rest
  | .line, _ :: rest => stripGo .line rest
  | .block, '*' :: '/' :: rest => stripGo .code rest
  | .block, _ :: rest => stripGo .block rest

def stripComments (s : String) : String := String.mk (stripGo .code s.toList)

/-- Split characters into maximal whitespace-free runs. -/
def wordsGo : List Char → List Char → List String
  | acc, [] => if acc.isEmpty then [] else [String.mk acc.reverse]
  | acc, c :: rest =>
    if Char.isWhitespace c then
      if acc.isEmpty then wordsGo [] rest
      else String.mk acc.reverse :: wordsGo [] rest
    else wordsGo (c :: acc) rest

/-- Collapse every whitespace run to a single space and trim the ends. -/
def collapseWs (s : String) : String := String.intercalate (" ") (wordsGo [] s.toList)

/-- The validator's normalized view of a candidate statement: comments
stripped, whitespace collapsed. -/
def normalizeQuery (raw : String) : String := collapseWs (stripComments raw)

def isIdentChar (c : Char) : Bool := c.isAlpha || c.isDigit || c == '_'

/-- Split characters into maximal identifier-character runs (whole tokens). -/
def tokensGo : List Char → List Char → List String
  | acc, [] => if acc.isEmpty then [] else [String.mk acc.reverse]
  | acc, c :: rest =>
    if isIdentChar c then tokensGo (c :: acc) rest
    else if acc.isEmpty then tokensGo [] rest
    else String.mk acc.reverse :: tokensGo [] rest

def tokens (s : String) : List String := tokensGo [] s.toList

/-- Modelled from the spec: the fixed keyword denylist of validator rule 4. -/
def forbiddenKeywords : List String :=
  ["DROP", "DELETE", "UPDATE", "INSERT", "ALTER", "TRUNCATE", "GRANT", "REVOKE",
   "EXEC", "EXECUTE", "CALL", "MERGE", "CREATE", "ATTACH", "COPY", "VACUUM"]

/-- Whether `kw` occurs in `s` as a whole token, case-insensitively. -/
def containsToken (s kw : String) : Bool := (tokens s).any (fun t => upStr t == kw)

/-- The documented application schema's table set (QUICKSTART database schema). -/
def allowedTables : List String :=
  ["project", "aiq_consumption", "resource_group", "monthly_cost", "cost_data",
   "project_cost_summary"]

/-- Identifiers referenced in table position: each token following a
FROM or JOIN token. -/
def tableRefs : List String → List String
  | a :: b :: rest =>
    if upStr a == "FROM" || upStr a == "JOIN" then b :: tableRefs (b :: rest)
    else tableRefs (b :: rest)
  | _ => []

/-- Modelled from the spec: validator rule 5, every referenced table must be
in the documented application schema. -/
def scopeOk (s : String) : Bool :=
  (tableRefs (tokens s)).all (fun t => allowedTables.contains (lowStr t))

def startsSelect (s : String) : Bool := strStarts (upStr s) ("SELECT")

/-- A `;` somewhere other than as the final character. -/
def stackedSemicolon (s : String) : Bool := s.toList.dropLast.contains ';'

inductive RejectReason where
  | TooLong
  | NotSelect
  | StackedStatements
  | ForbiddenKeyword (kw : String)
  | OutOfScope
deriving DecidableEq, Repr

inductive ValidationOutcome where
  | Accepted (normalized : String)
  | Rejected (reason : RejectReason)
deriving DecidableEq, Repr

def queryLengthCap : Nat := 2000

/-- Modelled from the spec: the Query Validator, rules applied in order with
first failure winning (validator implementation absent from the sources):
length cap, must start with SELECT after normalization, single statement,
keyword denylist on the comment-stripped text, schema scope check. -/
def validate (raw : String) : ValidationOutcome :=
  if queryLengthCap < raw.length then .Rejected .TooLong
  else if ¬ startsSelect (normalizeQuery raw) then .Rejected .NotSelect
  else if stackedSemicolon (normalizeQuery raw) then .Rejected .StackedStatements
  else
    match forbiddenKeywords.find? (fun kw => containsToken (normalizeQuery raw) kw) with
    | some kw => .Rejected (.ForbiddenKeyword kw)
    | none =>
      if scopeOk (normalizeQuery raw) then .Accepted (normalizeQuery raw)
      else .Rejected .OutOfScope

def isRejected : ValidationOutcome → Bool
  | .Rejected _ => true
  | .Accepted _ => false

/-! ## Query Executor (spec §4.5) -/

abbrev Row := List (String × String)

def rowCap : Nat := 1000

structure ExecutionResult where
  rows : List Row
  rowCount : Nat
  truncated : Bool
deriving DecidableEq, Repr

/-- Modelled from the spec: the Query Executor's row-cap behavior over the
underlying result set; results over the cap are truncated to the first
`rowCap` rows with `truncated := true` rather than erroring (executor
implementation absent from the sources). -/
def execute (rows : List Row) : ExecutionResult :=
  if rowCap < rows.length then ⟨rows.take rowCap, rowCap, true⟩
  else ⟨rows, rows.length, false⟩

inductive ExecErrorKind where
  | SyntaxError
  | Timeout
  | PermissionDenied
  | Unknown
deriving DecidableEq, Repr

/-! ## Conversation Store (spec §4.1) -/

inductive Role where
  | user
  | assistant
deriving DecidableEq, Repr

structure Turn where
  role : Role
  content : String
  timestamp : Nat
deriving DecidableEq, Repr

abbrev Store := List (String × List Turn)

def retentionCap : Nat := 20

/-- Keep only the most recent `retentionCap` turns, trimming oldest-first. -/
def trimTurns (ts : List Turn) : List Turn := ts.drop (ts.length - retentionCap)

/-- Modelled from the spec: `get(id)` on the Conversation Store, an empty
conversation for an unknown id (store implementation absent from the
sources). -/
def getConv (st : Store) (id : String) : List Turn := (st.lookup id).getD []

def setConv (st : Store) (id : String) (ts : List Turn) : Store := (id, ts) :: st

/-- Modelled from the spec: `append(id, turn)` with oldest-first trimming to
the retention cap. -/
def appendTurn (st : Store) (id : String) (t : Turn) : Store :=
  setConv st id (trimTurns (getConv st id ++ [t]))

/-! ## Prompt Builder (spec §4.2) -/

def schemaDescription : String :=
  "Tables: project, aiq_consumption, resource_group, monthly_cost, cost_data, project_cost_summary"

def schemaSection : String :=
  "System: You are the operations dashboard SQL assistant. " ++ schemaDescription ++ "\n"

def userBlock (m : String) : String := "User: " ++ m ++ "\n"

def assistantBlock (m : String) : String := "Assistant: " ++ m ++ "\n"

def turnBlock (t : Turn) : String :=
  match t.role with
  | .user => userBlock t.content
  | .assistant => assistantBlock t.content

def renderTurns : List Turn → String
  | [] => ""
  | t :: ts => turnBlock t ++ renderTurns ts

/-- Modelled from the spec: the Prompt Builder concatenates, in fixed order,
the static schema section, the retained turns verbatim, and the new user
message (builder implementation absent from the sources). -/
def build (conv : List Turn) (newMessage : String) : String :=
  schemaSection ++ renderTurns conv ++ userBlock newMessage

/-! ## SQL Extractor (spec §4.3) -/

/-- Modelled from the spec: pull the first fenced block tagged as SQL out of
the LLM reply; none present means the reply is a plain informational answer
(extractor implementation absent from the sources). -/
def extractSqlQuery (llmText : String) : Option String :=
  match afterPat (("```sql").toList) llmText.toList with
  | none => none
  | some rest => some (trimStr (String.mk (beforePat (("```").toList) rest)))

/-! ## Request validation and the chat pipeline (spec §3, §4.6, §7) -/

structure ChatRequest where
  message : String
  conversation_id : Option String
deriving DecidableEq, Repr

structure ChatResponse where
  response : String
  sql_query : Option String
  conversation_id : String
deriving DecidableEq, Repr

def isPrintableChar (c : Char) : Bool := 32 ≤ c.toNat && c.toNat ≤ 126

/-- Modelled from the spec: `message` must be 1-1000 printable characters. -/
def validMessage (m : String) : Bool :=
  1 ≤ m.length && m.length ≤ 1000 && m.toList.all isPrintableChar

def isConvIdChar (c : Char) : Bool := c.isAlpha || c.isDigit || c == '_' || c == '-'

/-- Modelled from the spec: a present `conversation_id` matches
`[A-Za-z0-9_-]` with length 1-128. -/
def validConvId (s : String) : Bool :=
  1 ≤ s.length && s.length ≤ 128 && s.toList.all isConvIdChar

def validRequest (r : ChatRequest) : Bool :=
  validMessage r.message &&
    (match r.conversation_id with
     | none => true
     | some id => validConvId id)

inductive ChatError where
  | RequestInvalid
  | LlmUnavailable
deriving DecidableEq, Repr

def reasonCode : RejectReason → String
  | .TooLong => "TooLong"
  | .NotSelect => "NotSelect"
  | .StackedStatements => "StackedStatements"
  | .ForbiddenKeyword kw => "ForbiddenKeyword:" ++ kw
  | .OutOfScope => "OutOfScope"

def refusalText (r : RejectReason) : String :=
  "I cannot run that query (" ++ reasonCode r ++ ")."

def renderRow (row : Row) : String :=
  String.intercalate (", ") (row.map (fun p => p.1 ++ "=" ++ p.2))

def renderResult (res : ExecutionResult) : String :=
  String.intercalate ("\n") (res.rows.map renderRow) ++
    (if res.truncated then "\n(results truncated)" else "")

def execFailText (_k : ExecErrorKind) : String := "The query could not be executed."

/-- One request's observable pipeline outcome: the result, the updated
store, whether the LLM was reached (and with which prompt), and whether the
database was reached. -/
structure PipelineTrace where
  result : Except ChatError ChatResponse
  store : Store
  llmCalled : Bool
  prompt : Option String
  dbCalled : Bool
deriving Repr

def promptOf (st : Store) (req : ChatRequest) (freshId : String) : String :=
  build (getConv st (req.conversation_id.getD freshId)) req.message

/-- Modelled from the spec: the end-to-end chat pipeline over an opaque LLM
`llm` and database `db` (pipeline implementation absent from the sources).
Invalid requests are rejected before the LLM; otherwise the prompt is built
from the stored history, the reply's fenced SQL (if any) is validated, an
accepted statement is executed, and both the user turn and the composed
assistant turn are appended to the store. -/
def processChat (llm : String → String) (db : String → Except ExecErrorKind ExecutionResult)
    (freshId : String) (now : Nat) (st : Store) (req : ChatRequest) : PipelineTrace :=
  if validRequest req then
    let cid := req.conversation_id.getD freshId
    let prompt := promptOf st req freshId
    let reply := llm prompt
    let outcome : String × Option String × Bool :=
      match extractSqlQuery reply with
      | none => (reply, none, false)
      | some cand =>
        match validate cand with
        | .Rejected r => (refusalText r, none, false)
        | .Accepted q =>
          match db q with
          | .ok res => (reply ++ "\n" ++ renderResult res, some q, true)
          | .error k => (execFailText k, some q, true)
    let resp : ChatResponse := ⟨outcome.1, outcome.2.1, cid⟩
    let st1 := appendTurn st cid ⟨.user, req.message, now⟩
    let st2 := appendTurn st1 cid ⟨.assistant, outcome.1, now⟩
    ⟨.ok resp, st2, true, some prompt, outcome.2.2⟩
  else
    ⟨.error .RequestInvalid, st, false, none, false⟩

/-! ## Status page service probe (src/frontend/app/status/page.tsx) -/

/-- Outcome of the `fetch` of `POST /api/chat/`: an HTTP response with a
status code, or a thrown connection error. -/
inductive FetchOutcome where
  | response (status : Nat)
  | thrown
deriving DecidableEq, Repr

/-- The `Response.ok` flag of the Fetch API: status in the range 200-299. -/
def respOk (status : Nat) : Bool := 200 ≤ status && status < 300

structure ServiceEntry where
  name : String
  status : String
  message : String
deriving DecidableEq, Repr

/-- The AI Chatbot branch of `checkServices` in
`src/frontend/app/status/page.tsx` (lines 114-147). -/
def checkChatbot : FetchOutcome → ServiceEntry
  | .response s =>
    if respOk s then ⟨"AI Chatbot", "healthy", "Chatbot is responding"⟩
    else if s == 500 then ⟨"AI Chatbot", "unknown", "Azure OpenAI not configured"⟩
    else ⟨"AI Chatbot", "unhealthy", "Chatbot service error"⟩
  | .thrown => ⟨"AI Chatbot", "unhealthy", "Cannot connect to chatbot service"⟩

/-! ## Project intake form (src/unnamed/part_008) -/

/-- JavaScript `new Date(a) >= new Date(b)` over parsed date values: `none`
stands for an Invalid Date, and any comparison with it is false. -/
def jsDateGe : Option Int → Option Int → Bool
  | some a, some b => b ≤ a
  | _, _ => false

/-- Step-3 branch of `validateStep` in the intake form, parameterized by the
JavaScript date parser `parse`: required-field errors for empty strings, a
`project_enddate` error when the start date compares `>=` the end date, and
a `true` result exactly when no error was recorded. -/
def validateStep3 (parse : String → Option Int) (startS endS : String) : Bool :=
  let errs : List (String × String) :=
    (if startS == "" then [("project_startdate", "Start date is required")] else []) ++
      (if endS == "" then [("project_enddate", "End date is required")] else []) ++
        (if jsDateGe (parse startS) (parse endS) then
          [("project_enddate", "End date must be after start date")] else [])
  errs.isEmpty

/-- The form's `handleArrayToggle`: remove `v` when present
(`filter(item => item !== value)`), append it when absent. -/
def handleArrayToggle (arr : List String) (v : String) : List String :=
  if arr.contains v then arr.filter (fun item => item != v) else arr ++ [v]

/-- JavaScript date parser stub used by the C9 witness. -/
def dateStub (s : String) : Option Int := if s == "2024-05-05" then some 100 else none

/-! ## Shared lemmas -/

lemma renderTurns_append (xs ys : List Turn) :
    renderTurns (xs ++ ys) = renderTurns xs ++ renderTurns ys := by
  induction xs with
  | nil => simp [renderTurns]
  | cons t ts ih => simp [renderTurns, ih, String.append_assoc]

lemma trimTurns_of_le (ts : List Turn) (h : ts.length ≤ retentionCap) : trimTurns ts = ts := by
  unfold trimTurns
  rw [Nat.sub_eq_zero_of_le h, List.drop_zero]

lemma getConv_setConv (st : Store) (id : String) (ts : List Turn) :
    getConv (setConv st id ts) id = ts := by
  simp [getConv, setConv, List.lookup]

lemma getConv_appendTurn (st : Store) (id : String) (t : Turn) :
    getConv (appendTurn st id t) id = trimTurns (getConv st id ++ [t]) := by
  simp [appendTurn, getConv_setConv]

lemma toggle_of_mem {arr : List String} {v : String} (h : v ∈ arr) :
    handleArrayToggle arr v = arr.filter (fun item => item != v) := by
  simp [handleArrayToggle, h]

lemma toggle_of_not_mem {arr : List String} {v : String} (h : v ∉ arr) :
    handleArrayToggle arr v = arr ++ [v] := by
  simp [handleArrayToggle, h]

lemma not_mem_filter_ne_self (arr : List String) (v : String) :
    v ∉ arr.filter (fun item => item != v) := by
  simp [List.mem_filter]

/-! ## Claim theorems -/

/-- C2: the statement `SELECT 1; DROP TABLE project;` is Rejected with
reason StackedStatements: the semicolon-position rule fires before the
forbidden-keyword rule because the validator applies its rules in order
with first failure winning. -/
theorem C2_stacked_statements_first :
    validate ("SELECT 1; DROP TABLE project;") = .Rejected .StackedStatements := by decide

/-- C5: the statement `SELECT * FROM project;` (single trailing semicolon,
under the length cap) is Accepted, with the normalized statement returned. -/
theorem C5_plain_select_accepted :
    validate ("SELECT * FROM project;") = .Accepted ("SELECT * FROM project;") := by decide

/-- C4: whenever the underlying result set exceeds the row cap of 1000,
`execute` returns a successful ExecutionResult with exactly the first 1000
rows and `truncated = true`, rather than an error. -/
theorem C4_row_cap_truncates (rows : List Row) (h : rowCap < rows.length) :
    execute rows = ⟨rows.take rowCap, rowCap, true⟩ := by
  simp [execute, h]

set_option maxRecDepth 100000 in
/-- Witness for C4: a 5000-row result executes to rowCount 1000 with
`truncated = true`. -/
theorem C4_row_cap_truncates_witness :
    rowCap < (List.replicate 5000 ([] : Row)).length ∧
      execute (List.replicate 5000 ([] : Row)) = ⟨List.replicate 1000 ([] : Row), 1000, true⟩ := by
  have h : rowCap < (List.replicate 5000 ([] : Row)).length := by
    rw [List.length_replicate]
    decide
  refine ⟨h, ?_⟩
  rw [C4_row_cap_truncates _ h, List.take_replicate]
  decide

/-- C8: the status page's chat probe classifies the AI Chatbot service in
exactly three mutually exclusive ways by HTTP outcome: an ok response is
healthy; a 500 response is unknown with message "Azure OpenAI not
configured"; any other non-ok response is unhealthy; a thrown fetch error
is unhealthy with message "Cannot connect to chatbot service". -/
theorem C8_chatbot_probe_classification :
    (∀ s, respOk s = true →
      checkChatbot (.response s) = ⟨"AI Chatbot", "healthy", "Chatbot is responding"⟩) ∧
    checkChatbot (.response 500) = ⟨"AI Chatbot", "unknown", "Azure OpenAI not configured"⟩ ∧
    (∀ s, respOk s = false → s ≠ 500 →
      checkChatbot (.response s) = ⟨"AI Chatbot", "unhealthy", "Chatbot service error"⟩) ∧
    checkChatbot .thrown = ⟨"AI Chatbot", "unhealthy", "Cannot connect to chatbot service"⟩ := by
  refine ⟨?_, by decide, ?_, by decide⟩
  · intro s h
    simp [checkChatbot, h]
  · intro s h hne
    simp [checkChatbot, h, hne]

/-- Witness for C8: a 204 response is healthy and a 404 response is
unhealthy. -/
theorem C8_chatbot_probe_witness :
    respOk 204 = true ∧
      checkChatbot (.response 204) = ⟨"AI Chatbot", "healthy", "Chatbot is responding"⟩ ∧
      respOk 404 = false ∧ (404 : Nat) ≠ 500 ∧
      checkChatbot (.response 404) = ⟨"AI Chatbot", "unhealthy", "Chatbot service error"⟩ :=
  ⟨by decide, C8_chatbot_probe_classification.1 204 (by decide), by decide, by decide,
    C8_chatbot_probe_classification.2.2.1 404 (by decide) (by decide)⟩

/-- C9: step 3 of the intake form's validateStep returns false whenever the
start date compares greater than or equal to the end date under the
JavaScript date comparison; in particular equal dates are rejected. -/
theorem C9_end_date_strictly_after (parse : String → Option Int) (startS endS : String)
    (h : jsDateGe (parse startS) (parse endS) = true) :
    validateStep3 parse startS endS = false := by
  simp [validateStep3, h]

/-- Witness for C9: equal start and end dates block progression. -/
theorem C9_end_date_strictly_after_witness :
    jsDateGe (dateStub ("2024-05-05")) (dateStub ("2024-05-05")) = true ∧
      validateStep3 dateStub ("2024-05-05") ("2024-05-05") = false :=
  ⟨by decide, C9_end_date_strictly_after dateStub _ _ (by decide)⟩

/-- C10: handleArrayToggle removes a present value and appends an absent
one, so toggling twice restores the original membership of the toggled
value, the toggled value never ends up duplicated, and a duplicate-free
array stays duplicate-free. -/
theorem C10_toggle_membership (arr : List String) (v : String) :
    (v ∈ handleArrayToggle (handleArrayToggle arr v) v ↔ v ∈ arr) ∧
      List.count v (handleArrayToggle arr v) ≤ 1 ∧
      (arr.Nodup → (handleArrayToggle arr v).Nodup) := by
  by_cases h : v ∈ arr
  · have h1 := toggle_of_mem h
    have h2 := toggle_of_not_mem (not_mem_filter_ne_self arr v)
    refine ⟨?_, ?_, ?_⟩
    · rw [h1, h2]
      simp [h]
    · rw [h1]
      rw [List.count_eq_zero.mpr (not_mem_filter_ne_self arr v)]
      exact Nat.zero_le 1
    · intro hn
      rw [h1]
      exact hn.filter _
  · have h1 := toggle_of_not_mem h
    have hmem : v ∈ arr ++ [v] := by simp
    have h2 := toggle_of_mem (h1 ▸ hmem : v ∈ handleArrayToggle arr v)
    refine ⟨?_, ?_, ?_⟩
    · rw [h2, h1]
      simp [List.mem_filter, h]
    · rw [h1]
      rw [List.count_append, List.count_eq_zero.mpr h, List.count_singleton_self]
    · intro hn
      rw [h1]
      refine hn.append (List.nodup_singleton v) ?_
      intro a ha hav
      simp at hav
      subst hav
      exact h ha

/-- Witness for C10: toggling "Azure" out of a duplicate-free selection
keeps it duplicate-free and a double toggle restores membership. -/
theorem C10_toggle_membership_witness :
    (["AWS", "Azure"] : List String).Nodup ∧
      (handleArrayToggle (["AWS", "Azure"]) ("Azure")).Nodup ∧
      ("Azure" ∈ handleArrayToggle (handleArrayToggle (["AWS", "Azure"]) ("Azure")) ("Azure") ↔
        "Azure" ∈ (["AWS", "Azure"] : List String)) :=
  ⟨by decide, (C10_toggle_membership (["AWS", "Azure"]) ("Azure")).2.2 (by decide),
    (C10_toggle_membership (["AWS", "Azure"]) ("Azure")).1⟩

/-- C7: a request whose message violates the 1-1000 printable-character
bound fails with RequestInvalid before the LLM is reached: no prompt is
built, the LLM is not called, no query is executed, and the store is
untouched. -/
theorem C7_invalid_request (llm : String → String)
    (db : String → Except ExecErrorKind ExecutionResult)
    (freshId : String) (now : Nat) (st : Store) (req : ChatRequest)
    (h : validMessage req.message = false) :
    processChat llm db freshId now st req = ⟨.error .RequestInvalid, st, false, none, false⟩ := by
  have hv : validRequest req = false := by
    simp [validRequest, h]
  simp [processChat, hv]

set_option maxRecDepth 100000 in
/-- Witness for C7: a 1500-character message is rejected before the LLM. -/
theorem C7_invalid_request_witness :
    validMessage (String.mk (List.replicate 1500 'a')) = false ∧
      processChat (fun _ => "") (fun _ => .error .Unknown) ("fresh") 0 []
          ⟨String.mk (List.replicate 1500 'a'), none⟩ =
        ⟨.error .RequestInvalid, [], false, none, false⟩ := by
  have h : validMessage (String.mk (List.replicate 1500 'a')) = false := by decide
  exact ⟨h, C7_invalid_request _ _ _ _ _ _ h⟩

/-- Counterexample for C1: `SELECT 1 -- DROP` contains DROP as a whole
token in its raw text (after a `--` comment marker), yet validate Accepts
it, because comment stripping removes the commented-out keyword before the
keyword scan runs. -/
theorem C1_keyword_inside_comment_counterexample :
    containsToken ("SELECT 1 -- DROP") ("DROP") = true ∧
      validate ("SELECT 1 -- DROP") = .Accepted ("SELECT 1") :=
  ⟨by decide, by decide⟩

/-- C1 (amended): for every candidate whose comment-stripped,
whitespace-collapsed text contains a denylisted keyword as a whole token,
case-insensitively, validate returns Rejected. -/
theorem C1_keyword_in_stripped_text_rejected (raw kw : String)
    (hk : kw ∈ forbiddenKeywords)
    (ht : containsToken (normalizeQuery raw) kw = true) :
    isRejected (validate raw) = true := by
  have hfind : (forbiddenKeywords.find? (fun k => containsToken (normalizeQuery raw) k)).isSome := by
    rw [List.find?_isSome]
    exact ⟨kw, hk, ht⟩
  unfold validate
  split
  · rfl
  · split
    · rfl
    · split
      · rfl
      · split
        · rfl
        · next heq =>
          rw [heq] at hfind
          simp at hfind

/-- Witness for C1 (amended): `SELECT 1 WHERE DROP` is rejected. -/
theorem C1_keyword_in_stripped_text_rejected_witness :
    (("DROP") ∈ forbiddenKeywords) ∧
      containsToken (normalizeQuery ("SELECT 1 WHERE DROP")) ("DROP") = true ∧
      isRejected (validate ("SELECT 1 WHERE DROP")) = true :=
  ⟨by decide, by decide,
    C1_keyword_in_stripped_text_rejected ("SELECT 1 WHERE DROP") ("DROP")
      (by decide) (by decide)⟩

lemma processChat_valid_shape (llm : String → String)
    (db : String → Except ExecErrorKind ExecutionResult)
    (fid : String) (now : Nat) (st : Store) (req : ChatRequest)
    (hreq : validRequest req = true) :
    ∃ s q b, processChat llm db fid now st req =
      ⟨.ok ⟨s, q, req.conversation_id.getD fid⟩,
        appendTurn (appendTurn st (req.conversation_id.getD fid) ⟨.user, req.message, now⟩)
          (req.conversation_id.getD fid) ⟨.assistant, s, now⟩,
        true, some (promptOf st req fid), b⟩ := by
  rcases hex : extractSqlQuery (llm (promptOf st req fid)) with _ | cand
  · refine ⟨llm (promptOf st req fid), none, false, ?_⟩
    simp [processChat, hreq, hex]
  · rcases hval : validate cand with q0 | r
    · rcases hdb : db q0 with k | res
      · refine ⟨execFailText k, some q0, true, ?_⟩
        simp [processChat, hreq, hex, hval, hdb]
      · refine ⟨llm (promptOf st req fid) ++ "\n" ++ renderResult res, some q0, true, ?_⟩
        simp [processChat, hreq, hex, hval, hdb]
    · refine ⟨refusalText r, none, false, ?_⟩
      simp [processChat, hreq, hex, hval]

/-- C3: ChatResponse.sql_query is non-null only when a candidate statement
was Accepted by the validator and then executed (successfully or not), and
it is then the accepted normalized statement; and when the LLM reply has no
fenced SQL block, the response carries `sql_query = none` and the database
is never called. -/
theorem C3_sql_query_only_accepted (llm : String → String)
    (db : String → Except ExecErrorKind ExecutionResult)
    (freshId : String) (now : Nat) (st : Store) (req : ChatRequest) :
    (∀ resp q, (processChat llm db freshId now st req).result = .ok resp →
      resp.sql_query = some q →
      (∃ cand, extractSqlQuery (llm (promptOf st req freshId)) = some cand ∧
        validate cand = .Accepted q) ∧
        (processChat llm db freshId now st req).dbCalled = true) ∧
    (extractSqlQuery (llm (promptOf st req freshId)) = none →
      (processChat llm db freshId now st req).dbCalled = false ∧
        ∀ resp, (processChat llm db freshId now st req).result = .ok resp →
          resp.sql_query = none) := by
  cases hreq : validRequest req with
  | false =>
    refine ⟨?_, ?_⟩
    · intro resp q hres hsq
      simp [processChat, hreq] at hres
    · intro hex
      refine ⟨by simp [processChat, hreq], ?_⟩
      intro resp hres
      simp [processChat, hreq] at hres
  | true =>
    rcases hex : extractSqlQuery (llm (promptOf st req freshId)) with _ | cand
    · refine ⟨?_, ?_⟩
      · intro resp q hres hsq
        simp [processChat, hreq, hex] at hres
        rw [← hres] at hsq
        simp at hsq
      · intro _
        refine ⟨by simp [processChat, hreq, hex], ?_⟩
        intro resp hres
        simp [processChat, hreq, hex] at hres
        rw [← hres]
    · refine ⟨?_, ?_⟩
      · intro resp q hres hsq
        rcases hval : validate cand with q0 | r
        · rcases hdb : db q0 with k | res
          · simp [processChat, hreq, hex, hval, hdb] at hres ⊢
            rw [← hres] at hsq
            simp at hsq
            exact hsq
          · simp [processChat, hreq, hex, hval, hdb] at hres ⊢
            rw [← hres] at hsq
            simp at hsq
            exact hsq
        · simp [processChat, hreq, hex, hval] at hres
          rw [← hres] at hsq
          simp at hsq
      · intro hexn
        exact Option.noConfusion hexn

/-- Witness for C3: an LLM reply with no fenced SQL block leads to no
database call. -/
theorem C3_sql_query_only_accepted_witness :
    extractSqlQuery ((fun _ : String => "no query needed")
        (promptOf [] ⟨"hi", none⟩ ("fresh"))) = none ∧
      (processChat (fun _ => "no query needed") (fun _ => .error .Unknown) ("fresh") 0 []
          ⟨"hi", none⟩).dbCalled = false := by
  have h : extractSqlQuery ((fun _ : String => "no query needed")
      (promptOf [] ⟨"hi", none⟩ ("fresh"))) = none := by decide
  exact ⟨h, ((C3_sql_query_only_accepted (fun _ => "no query needed")
    (fun _ => .error .Unknown) ("fresh") 0 [] ⟨"hi", none⟩).2 h).1⟩

/-- C6: for two chat calls with the same conversation id (history under the
retention cap), the prompt built for the second call contains the first
call's user turn and assistant turn verbatim, in order, after the static
schema section and before the new user message. -/
theorem C6_second_prompt_contains_history
    (llm : String → String) (db : String → Except ExecErrorKind ExecutionResult)
    (fid1 fid2 : String) (now1 now2 : Nat) (st : Store) (cid m1 m2 : String)
    (resp1 : ChatResponse)
    (h1 : (processChat llm db fid1 now1 st ⟨m1, some cid⟩).result = .ok resp1)
    (hlen : (getConv st cid).length + 2 ≤ retentionCap)
    (hv2 : validRequest ⟨m2, some cid⟩ = true) :
    (processChat llm db fid2 now2 (processChat llm db fid1 now1 st ⟨m1, some cid⟩).store
        ⟨m2, some cid⟩).prompt =
      some (schemaSection ++ renderTurns (getConv st cid) ++ userBlock m1 ++
        assistantBlock resp1.response ++ userBlock m2) := by
  cases hreq1 : validRequest ⟨m1, some cid⟩ with
  | false =>
    exfalso
    simp [processChat, hreq1] at h1
  | true =>
    obtain ⟨s, q, b, hshape⟩ := processChat_valid_shape llm db fid1 now1 st ⟨m1, some cid⟩ hreq1
    rw [hshape] at h1
    simp at h1
    rw [hshape]
    simp only [Option.getD_some]
    obtain ⟨s2, q2, b2, hshape2⟩ := processChat_valid_shape llm db fid2 now2
      (appendTurn (appendTurn st cid ⟨.user, m1, now1⟩) cid ⟨.assistant, s, now1⟩)
      ⟨m2, some cid⟩ hv2
    rw [hshape2]
    simp only [Option.getD_some, promptOf]
    rw [getConv_appendTurn, getConv_appendTurn]
    have hin : (getConv st cid ++ [(⟨.user, m1, now1⟩ : Turn)]).length ≤ retentionCap := by
      rw [List.length_append]
      simp only [List.length_cons, List.length_nil]
      omega
    rw [trimTurns_of_le _ hin]
    have hout : ((getConv st cid ++ [(⟨.user, m1, now1⟩ : Turn)]) ++
        [(⟨.assistant, s, now1⟩ : Turn)]).length ≤ retentionCap := by
      rw [List.length_append, List.length_append]
      simp only [List.length_cons, List.length_nil]
      omega
    rw [trimTurns_of_le _ hout]
    rw [← h1]
    simp only [build, renderTurns_append, renderTurns, turnBlock, String.append_empty]
    simp [String.append_assoc]

/-- Witness for C6: a concrete second call's prompt lists the first call's
user and assistant turns between the schema section and the new message. -/
theorem C6_second_prompt_contains_history_witness :
    (processChat (fun _ => "hello") (fun _ => .error .Unknown) ("f1") 0 []
        ⟨"hi", some "c"⟩).result = .ok ⟨"hello", none, "c"⟩ ∧
      (getConv [] ("c")).length + 2 ≤ retentionCap ∧
      validRequest ⟨"again", some "c"⟩ = true ∧
      (processChat (fun _ => "hello") (fun _ => .error .Unknown) ("f2") 1
          (processChat (fun _ => "hello") (fun _ => .error .Unknown) ("f1") 0 []
            ⟨"hi", some "c"⟩).store
          ⟨"again", some "c"⟩).prompt =
        some (schemaSection ++ renderTurns (getConv [] ("c")) ++ userBlock ("hi") ++
          assistantBlock ("hello") ++ userBlock ("again")) := by
  have h1 : (processChat (fun _ => "hello") (fun _ => .error .Unknown) ("f1") 0 []
      ⟨"hi", some "c"⟩).result = .ok ⟨"hello", none, "c"⟩ := rfl
  exact ⟨h1, by decide, by decide,
    C6_second_prompt_contains_history (fun _ => "hello") (fun _ => .error .Unknown)
      ("f1") ("f2") 0 1 [] ("c") ("hi") ("again") ⟨"hello", none, "c"⟩
      h1 (by decide) (by decide)⟩
